import Mathlib

/-!
Shallow embedding of `studybuilder-import/importers/utils/api_bindings.py`
(`ApiBinding` and its helper functions), together with theorems checking the
natural-language specification against the code.

HTTP transports (`requests`, `aiohttp`) are modelled as oracles passed in as
arguments: a response is a status code together with either a parsed JSON
object (an association list of string fields) or, for a non-JSON body, the raw
text.  Side effects (log calls, metrics increments, file writes, sleeps and
the HTTP requests themselves) are modelled as an explicit event trace returned
alongside the result.  Python exceptions escaping a function are modelled with
`Except PyErr`.
-/

namespace ApiBindings

/-- True when `pat` occurs as a contiguous substring of `s`; models the Python
`pat in s` test on strings. -/
def strContains (s pat : String) : Bool :=
  decide (pat.data <:+: s.data)

/-- A parsed JSON object body: an association list from field names to string
values (the fields the binding ever reads are strings). -/
abbrev Body := List (String × String)

/-- Field access `body.get(key)`: first binding of `key`, if any. -/
def bget (b : Body) (k : String) : Option String :=
  (b.find? (fun kv => kv.1 = k)).map (fun kv => kv.2)

/-- Models Python `str(response)` on a parsed dict body; the exact rendering
only feeds log text and substring scans, which never match on the braces. -/
def bodyStr (b : Body) : String :=
  "\x7b" ++ String.intercalate (", ") (b.map (fun kv => kv.1 ++ (": ") ++ kv.2)) ++ "\x7d"

/-- Python exceptions this layer can let escape to its caller. -/
inductive PyErr
  | keyError
  | typeError
  | contentTypeError
  | httpError
  | jsonDecodeError
deriving DecidableEq

/-- Source `status_ok`: `200 <= status < 300`. -/
def status_ok (status : Nat) : Bool :=
  200 ≤ status && status < 300

/-- The `response.ok` property of both `requests` and `aiohttp` responses:
true exactly when the status code is below 400. -/
def response_ok (status : Nat) : Bool :=
  status < 400

/-- `requests.Response.raise_for_status` raises `HTTPError` exactly for client
or server error status codes, `400 <= status < 600`. -/
def raises_for_status (status : Nat) : Bool :=
  400 ≤ status && status < 600

/-- Source `get_error_message`: the `message` field if present, else the
`detail` field, else the stringified body. -/
def get_error_message (response : Body) : String :=
  match bget response ("message") with
  | some m => m
  | none =>
    match bget response ("detail") with
    | some d => d
    | none => bodyStr response

/-- Modelled from the spec: `path_join` (imported from `utils/path_join.py`,
which is not part of the sources) joins URL segments with single slashes, as
in the spec's approval sub-resource pattern
`POST base/resource-collection/uid/approvals`. -/
def path_join (segments : List String) : String :=
  String.intercalate ("/") segments

/-- Source constant `SLEEP_BEFORE_APPROVE = 0.05` seconds, expressed in
milliseconds to stay in the naturals. -/
def SLEEP_BEFORE_APPROVE_MS : Nat := 50

/-- The error categories the binding distinguishes when classifying a failed
response; `generic` is the catch-all `--ERROR` metrics bucket. -/
inductive ErrorCategory
  | alreadyExists
  | notFound
  | noObjective
  | generic
deriving DecidableEq

/-- The metrics-key suffix the classifier routes a failure to
(`--AlreadyExists`, `--NotFound`, `--NoObjective`, `--ERROR`). -/
def categorySuffix : ErrorCategory → String
  | ErrorCategory.alreadyExists => "--AlreadyExists"
  | ErrorCategory.notFound => "--NotFound"
  | ErrorCategory.noObjective => "--NoObjective"
  | ErrorCategory.generic => "--ERROR"

/-- The error classification performed inline by `post_to_api` on a failed
response body (the `if/elif/else` chain of lines 246-262): `already exists`,
`Duplicate template` or `already has` in the `message` field gives
AlreadyExists; else `not found` or `does not exist` gives NotFound; anything
else, including a body with no `message` field at all, is the generic
`--ERROR` bucket. -/
def classify_post_error (b : Body) : ErrorCategory :=
  match bget b ("message") with
  | some m =>
    if strContains m ("already exists") || strContains m ("Duplicate template")
        || strContains m ("already has") then
      ErrorCategory.alreadyExists
    else if strContains m ("not found") || strContains m ("does not exist") then
      ErrorCategory.notFound
    else
      ErrorCategory.generic
  | none => ErrorCategory.generic

/-- The error classification performed inline by `simple_post_to_api` on a
failed response body (lines 200-218): `already exist`, `all ready`,
`Duplicate template` or `There is already` in the `message` field gives
AlreadyExists; else `no approved objective` gives NoObjective; anything else
is the generic `--ERROR` bucket. -/
def classify_simple_post_error (b : Body) : ErrorCategory :=
  match bget b ("message") with
  | some m =>
    if strContains m ("already exist") || strContains m ("all ready")
        || strContains m ("Duplicate template") || strContains m ("There is already") then
      ErrorCategory.alreadyExists
    else if strContains m ("no approved objective") then
      ErrorCategory.noObjective
    else
      ErrorCategory.generic
  | none => ErrorCategory.generic

/-- An ordered rule table: each rule maps a substring pattern to a category. -/
abbrev RuleTable := List (String × ErrorCategory)

/-- First-match semantics over an ordered rule table applied to one message
string: the category of the first rule whose pattern occurs in the message,
else `generic`. -/
def firstMatchCategory (rules : RuleTable) (msg : String) : ErrorCategory :=
  match rules.find? (fun r => strContains msg r.1) with
  | some r => r.2
  | none => ErrorCategory.generic

/-- The rule table of `post_to_api`, in declaration order. -/
def postErrorRules : RuleTable :=
  [("already exists", ErrorCategory.alreadyExists),
   ("Duplicate template", ErrorCategory.alreadyExists),
   ("already has", ErrorCategory.alreadyExists),
   ("not found", ErrorCategory.notFound),
   ("does not exist", ErrorCategory.notFound)]

/-- Modelled from the spec: a classifier that scans the ordered substring set
in the body's `message` or `detail` field (the spec's words: "scan for a
fixed, ordered set of substrings in a `message` or `detail` field ... and
return the first matching category, else `Generic`"). Used only to state the
claim that the code's classifier has this behaviour. -/
def spec_classifier (rules : RuleTable) (b : Body) : ErrorCategory :=
  match bget b ("message") with
  | some m => firstMatchCategory rules m
  | none =>
    match bget b ("detail") with
    | some d => firstMatchCategory rules d
    | none => ErrorCategory.generic

/-- An asynchronous HTTP request as issued by the binding, with its full
target URL (base URL already joined in). -/
inductive AsyncReq
  | post (url : String) (body : Body)
  | patchReq (url : String) (body : Body)
  | newVersion (url : String)
  | approve (url : String)
deriving DecidableEq

/-- One observable effect of a binding operation: an HTTP request, the fixed
pre-approval sleep, a leveled log call, a metrics increment, or a line
appended to an error log file. -/
inductive Event
  | req (r : AsyncReq)
  | sleep (ms : Nat)
  | logDebug (m : String)
  | logInfo (m : String)
  | logWarning (m : String)
  | logError (m : String)
  | logCritical (m : String)
  | metric (key : String)
  | logfileWrite (name m : String)
deriving DecidableEq

/-- True for the event of issuing an approval request. -/
def isApproveReq : Event → Bool
  | Event.req (AsyncReq.approve _) => true
  | _ => false

/-- True for the event of issuing a PATCH request. -/
def isPatchReq : Event → Bool
  | Event.req (AsyncReq.patchReq _ _) => true
  | _ => false

/-- The transport oracle for asynchronous calls: for each request, the
response status and either the parsed JSON object or (for a body that is not
JSON, which `aiohttp` reports as a `ContentTypeError`) the raw response
text. -/
abbrev AsyncServer := AsyncReq → Nat × Except String Body

/-- Source `new_version_to_api_async`: POST `{}` to `base/path`; on a
non-JSON body, log an error and use `{}` as the result.  Returns
`(status, result)` and the effect trace. -/
def new_version_to_api_async (server : AsyncServer) (base path : String) :
    (Nat × Body) × List Event :=
  let url := path_join [base, path]
  let (status, pb) := server (AsyncReq.newVersion url)
  match pb with
  | Except.ok result => ((status, result), [Event.req (AsyncReq.newVersion url)])
  | Except.error textresult =>
    ((status, []),
     [Event.req (AsyncReq.newVersion url),
      Event.logError ("Failed to post to \x27" ++ path ++ "\x27, status: "
        ++ toString status ++ ", message: " ++ textresult)])

/-- Source `patch_to_api_async`: PATCH `body` to `base/path`; on a non-JSON
body, log an error and use `{}` as the result. -/
def patch_to_api_async (server : AsyncServer) (base path : String) (body : Body) :
    (Nat × Body) × List Event :=
  let url := path_join [base, path]
  let (status, pb) := server (AsyncReq.patchReq url body)
  match pb with
  | Except.ok result => ((status, result), [Event.req (AsyncReq.patchReq url body)])
  | Except.error textresult =>
    ((status, []),
     [Event.req (AsyncReq.patchReq url body),
      Event.logError ("Failed to patch to \x27" ++ path ++ "\x27, status: "
        ++ toString status ++ ", message: " ++ textresult)])

/-- Source `post_to_api_async` (the semaphore acquisition around the request
is modelled separately by the concurrency-gate semantics below): POST `body`
to `base/url`.  With a `logfile_name` given and a status other than 200/201,
a line quoting the body's `message` (else `detail`) field is appended to the
file — Python raises `KeyError` there when neither field is present.  On a
non-JSON body, log an error and use `{}` as the result. -/
def post_to_api_async (server : AsyncServer) (base url : String) (body : Body)
    (logfile_name : Option String) :
    Except PyErr (Nat × Body) × List Event :=
  let url' := path_join [base, url]
  let (status, pb) := server (AsyncReq.post url' body)
  match pb with
  | Except.ok result =>
    match logfile_name with
    | some name =>
      if status = 200 || status = 201 then
        (Except.ok (status, result), [Event.req (AsyncReq.post url' body)])
      else
        match bget result ("message"), bget result ("detail") with
        | some m, _ =>
          (Except.ok (status, result),
           [Event.req (AsyncReq.post url' body),
            Event.logfileWrite name ("Failed to post to \x27" ++ url ++ "\x27, status: "
              ++ toString status ++ ", message: " ++ m ++ ", body: " ++ bodyStr body)])
        | none, some d =>
          (Except.ok (status, result),
           [Event.req (AsyncReq.post url' body),
            Event.logfileWrite name ("Failed to post to \x27" ++ url ++ "\x27, status: "
              ++ toString status ++ ", message: " ++ d ++ ", body: " ++ bodyStr body)])
        | none, none =>
          (Except.error PyErr.keyError, [Event.req (AsyncReq.post url' body)])
    | none => (Except.ok (status, result), [Event.req (AsyncReq.post url' body)])
  | Except.error textresult =>
    (Except.ok (status, []),
     [Event.req (AsyncReq.post url' body),
      Event.logError ("Failed to post to \x27" ++ url ++ "\x27, status: "
        ++ toString status ++ ", message: " ++ textresult)])

/-- Source `approve_item_async`: POST to `base/url/uid/approvals`.  On a
response with `ok` status (below 400) the body is parsed as JSON without a
guard, so a non-JSON body raises `ContentTypeError`; on a non-ok status the
failure message is extracted and logged and `{}` is the result.  A metrics
key is incremented either way. -/
def approve_item_async (server : AsyncServer) (base uid url : String) :
    Except PyErr (Nat × Body) × List Event :=
  let url' := path_join [base, url, uid, "approvals"]
  let (status, pb) := server (AsyncReq.approve url')
  if response_ok status then
    match pb with
    | Except.ok result =>
      (Except.ok (status, result),
       [Event.req (AsyncReq.approve url'), Event.metric (url' ++ "--Approve")])
    | Except.error _ =>
      (Except.error PyErr.contentTypeError, [Event.req (AsyncReq.approve url')])
  else
    let error_message :=
      match pb with
      | Except.ok error_result => get_error_message error_result
      | Except.error textresult => textresult
    (Except.ok (status, []),
     [Event.req (AsyncReq.approve url'),
      Event.logWarning ("Failed to approve " ++ url' ++ ", status: "
        ++ toString status ++ ", message: " ++ error_message),
      Event.metric (url' ++ "--ApproveError")])

/-- A work item handed to `post_then_approve`: the `data` dict with its
`path`, `body` and `approve_path` keys. -/
structure PostData where
  path : String
  body : Body
  approve_path : String

/-- Source `post_then_approve`: POST the work item's body to its path; on
status at least 400 extract and log the failure message and stop (returning
Python `None`, modelled `none`).  Otherwise, when approval was requested and
the response carries a `uid`, sleep the fixed pre-approval delay and issue
exactly one approval request, returning the approval result; when approval
was requested but no `uid` is present, log an error; in the remaining cases
return the post response. -/
def post_then_approve (server : AsyncServer) (base : String) (data : PostData)
    (approve : Bool) : Except PyErr (Option Body) × List Event :=
  let ev0 := [Event.logDebug ("Post to " ++ data.path)]
  match post_to_api_async server base data.path data.body none with
  | (Except.error e, tr) => (Except.error e, ev0 ++ tr)
  | (Except.ok (status, response), tr) =>
    if 400 ≤ status then
      let errormsg :=
        match bget response ("message") with
        | some m => m
        | none => bodyStr response
      let name :=
        match bget data.body ("name") with
        | some n => n
        | none =>
          match bget data.body ("term_uid") with
          | some t => t
          | none => bodyStr data.body
      (Except.ok none,
       ev0 ++ tr ++ [Event.logError ("Failed to post \x27" ++ name ++ "\x27 to \x27"
         ++ data.path ++ "\x27, error: " ++ errormsg)])
    else
      match bget response ("uid") with
      | some uid =>
        if approve = true then
          let ev1 := ev0 ++ tr ++ [Event.sleep SLEEP_BEFORE_APPROVE_MS,
            Event.logInfo ("Approve object with uid \x27" ++ uid ++ "\x27")]
          match approve_item_async server base uid data.approve_path with
          | (Except.error e, tr2) => (Except.error e, ev1 ++ tr2)
          | (Except.ok (_, result), tr2) => (Except.ok (some result), ev1 ++ tr2)
        else (Except.ok (some response), ev0 ++ tr)
      | none =>
        if approve = true then
          (Except.ok (some response),
           ev0 ++ tr ++ [Event.logError ("No uid returned, unable to approve")])
        else (Except.ok (some response), ev0 ++ tr)

/-- A work item handed to `new_version_patch_then_approve`: the `data` dict
with its `new_path`, `patch_path`, `body` and `approve_path` keys. -/
structure NewVersionData where
  new_path : String
  patch_path : String
  body : Body
  approve_path : String

/-- The tail of source `new_version_patch_then_approve`, from the patch step
on (`ev0` is the trace accumulated by the version step): PATCH the body; a
failure stops the workflow.  Then, when approval was requested and the patch
response carries a `uid`, sleep the fixed delay and issue the approval
request; its result is bound to a misspelled dead variable (`reponse`) in the
source, so the patch response is returned whether or not the approval
succeeded.  When approval was requested without a `uid`, log an error; with
`approve = false` the function falls off the end, returning Python `None`. -/
def nvpa_from_patch (server : AsyncServer) (base : String) (data : NewVersionData)
    (approve : Bool) (ev0 : List Event) : Except PyErr (Option Body) × List Event :=
  let ((status1, response1), tr1) := patch_to_api_async server base data.patch_path data.body
  if status_ok status1 = false then
    (Except.ok none,
     ev0 ++ tr1 ++ [Event.logError ("Failed to patch: " ++ get_error_message response1)])
  else
    match bget response1 ("uid") with
    | some uid =>
      if approve = true then
        let ev1 := ev0 ++ tr1 ++ [Event.sleep SLEEP_BEFORE_APPROVE_MS]
        match approve_item_async server base uid data.approve_path with
        | (Except.error e, tr2) => (Except.error e, ev1 ++ tr2)
        | (Except.ok (status2, _reponse), tr2) =>
          if status_ok status2 = false then
            (Except.ok (some response1),
             ev1 ++ tr2 ++ [Event.logError ("Failed to approve the new version of: " ++ uid)])
          else (Except.ok (some response1), ev1 ++ tr2)
      else (Except.ok none, ev0 ++ tr1)
    | none =>
      if approve = true then
        (Except.ok none,
         ev0 ++ tr1 ++ [Event.logError ("No uid returned, unable to approve the new version")])
      else (Except.ok none, ev0 ++ tr1)

/-- The version-creation step of `new_version_patch_then_approve`: a failure
whose message contains the fixed draft-state text only logs a warning and
falls through to `nvpa_from_patch`; any other failure stops the workflow. -/
def new_version_patch_then_approve (server : AsyncServer) (base : String)
    (data : NewVersionData) (approve : Bool) : Except PyErr (Option Body) × List Event :=
  let ((status0, response0), tr0) := new_version_to_api_async server base data.new_path
  if status_ok status0 then nvpa_from_patch server base data approve tr0
  else
    let error_msg := get_error_message response0
    if strContains error_msg ("New draft version can be created only for FINAL versions") then
      nvpa_from_patch server base data approve
        (tr0 ++ [Event.logWarning ("Failed to create new version, item is already in DRAFT")])
    else
      (Except.ok none,
       tr0 ++ [Event.logError ("Failed to create new version: " ++ error_msg)])

/-- The pagination parameters a call to `get_all_from_api` receives from
`get_all_from_api_paged`. -/
structure PageReq where
  page_number : Nat
  page_size : Nat
  total_count : Bool
deriving DecidableEq

/-- The oracle behind `get_all_from_api` as used by the paged fetcher: the
declared total count (the `total` field of the first, `total_count = true`
response) and, per page number, either that page's `items` list or `none` for
a failed GET (where `get_all_from_api` returns Python `None`). -/
structure PageServer (α : Type) where
  total : Nat
  page : Nat → Option (List α)

/-- How a paged fetch can fail: `typeError` models Python subscripting or
extending `None` after a failed page GET; `fuelOut` is the modelling artifact
for the non-terminating `page_size = 0` loop (never reached once the page
size is positive, see `pagedLoopAux_spec`). -/
inductive PagedErr
  | typeError
  | fuelOut
deriving DecidableEq

/-- The `while page_size * page_number < count` loop of
`get_all_from_api_paged`: each iteration increments the page number, fetches
that page and extends the accumulated items.  Returns the aggregate and the
page numbers requested, in order. -/
def pagedLoopAux {α : Type} (page : Nat → Option (List α)) (count page_size : Nat) :
    Nat → Nat → List α → Except PagedErr (List α) × List Nat
  | 0, page_number, all_items =>
    if page_size * page_number < count then (Except.error PagedErr.fuelOut, [])
    else (Except.ok all_items, [])
  | fuel + 1, page_number, all_items =>
    if page_size * page_number < count then
      match page (page_number + 1) with
      | none => (Except.error PagedErr.typeError, [page_number + 1])
      | some additional_data =>
        let rest := pagedLoopAux page count page_size fuel (page_number + 1)
          (all_items ++ additional_data)
        (rest.1, (page_number + 1) :: rest.2)
    else (Except.ok all_items, [])

/-- Source `get_all_from_api_paged`: request page 1 with `total_count = true`,
read the declared total, then loop over the remaining pages with
`total_count = false`.  Returns the aggregated items and the trace of page
requests issued. -/
def get_all_from_api_paged {α : Type} (server : PageServer α) (page_size : Nat) :
    Except PagedErr (List α) × List PageReq :=
  let firstReq : PageReq := ⟨1, page_size, true⟩
  match server.page 1 with
  | none => (Except.error PagedErr.typeError, [firstReq])
  | some all_items =>
    let count := server.total
    let rest := pagedLoopAux server.page count page_size count 1 all_items
    (rest.1, firstReq :: rest.2.map (fun p => ⟨p, page_size, false⟩))

/-- Python dict insertion: overwrite the value in place when the key exists,
else append the binding. -/
def dset (d : List (String × String)) (k v : String) : List (String × String) :=
  if d.any (fun kv => kv.1 = k) then
    d.map (fun kv => if kv.1 = k then (k, v) else kv)
  else d ++ [(k, v)]

/-- The identifier-list loop of `get_all_identifiers` (`value is None`
branch): `item[identifier]` for each item, raising `KeyError` on a missing
field. -/
def buildIdentifierList (identifier : String) :
    List Body → List String → Except PyErr (List String)
  | [], acc => Except.ok acc
  | r :: rs, acc =>
    match bget r identifier with
    | some k => buildIdentifierList identifier rs (acc ++ [k])
    | none => Except.error PyErr.keyError

/-- The mapping loop of `get_all_identifiers` (`value` provided):
`identifiers[item[identifier]] = item[value]` for each item. -/
def buildIdentifierMap (identifier value : String) :
    List Body → List (String × String) → Except PyErr (List (String × String))
  | [], acc => Except.ok acc
  | r :: rs, acc =>
    match bget r identifier, bget r value with
    | some k, some v => buildIdentifierMap identifier value rs (dset acc k v)
    | _, _ => Except.error PyErr.keyError

/-- Source `get_all_identifiers`: with `value = None` it builds the list of
identifier fields, iterating `responses` without any `None` guard (so a
`None` argument raises `TypeError`); with a `value` it first returns the
empty dict on a `None` argument and otherwise builds the identifier-to-value
mapping. -/
def get_all_identifiers (responses : Option (List Body)) (identifier : String)
    (value : Option String) :
    Except PyErr (List String ⊕ List (String × String)) :=
  match value with
  | none =>
    match responses with
    | none => Except.error PyErr.typeError
    | some rs => (buildIdentifierList identifier rs []).map Sum.inl
  | some v =>
    match responses with
    | none => Except.ok (Sum.inr [])
    | some rs => (buildIdentifierMap identifier v rs []).map Sum.inr

/-- Source `get_libraries`: GET `libraries`, `raise_for_status` (propagating
`HTTPError` for a 4xx/5xx status to the caller), parse the JSON list
(`JSONDecodeError` propagates) and collect the `name` field of each entry
(`KeyError` propagates). -/
def get_libraries (status : Nat) (body : Except String (List Body)) :
    Except PyErr (List String) × List Event :=
  if raises_for_status status then (Except.error PyErr.httpError, [])
  else
    match body with
    | Except.error _ => (Except.error PyErr.jsonDecodeError, [])
    | Except.ok libs =>
      match libs.mapM (fun lib => bget lib ("name")) with
      | none => (Except.error PyErr.keyError, [])
      | some lib_names =>
        (Except.ok lib_names,
         [Event.logInfo ("Existing libraries: " ++ String.intercalate (", ") lib_names)])

/-- Source `create_library`: increment the `/libraries` metric, POST the
object, `raise_for_status` (propagating `HTTPError` to the caller), return
Python `None`. -/
def create_library (status : Nat) : Except PyErr Unit × List Event :=
  if raises_for_status status then
    (Except.error PyErr.httpError, [Event.metric ("/libraries")])
  else (Except.ok (), [Event.metric ("/libraries")])

/-- Source `simple_post_to_api`: on an ok response return the parsed body
(`JSONDecodeError` propagating for a non-JSON body); on a failed response
classify the JSON error body (again `JSONDecodeError` propagates when it is
not JSON), log a warning, increment the classified metrics key and return
Python `None`. -/
def simple_post_to_api (path : String) (simple_path : Option String)
    (status : Nat) (body : Except String Body) :
    Except PyErr (Option Body) × List Event :=
  let sp := simple_path.getD path
  let text := match body with
    | Except.ok b => bodyStr b
    | Except.error t => t
  if response_ok status then
    match body with
    | Except.ok result =>
      (Except.ok (some result),
       [Event.metric (sp ++ "--POST"), Event.logDebug ("POST " ++ path ++ " success")])
    | Except.error _ =>
      (Except.error PyErr.jsonDecodeError,
       [Event.metric (sp ++ "--POST"), Event.logDebug ("POST " ++ path ++ " success")])
  else
    match body with
    | Except.error _ =>
      (Except.error PyErr.jsonDecodeError, [Event.logDebug ("POST " ++ path)])
    | Except.ok result =>
      match classify_simple_post_error result, bget result ("message") with
      | ErrorCategory.alreadyExists, some m =>
        (Except.ok none,
         [Event.logDebug ("POST " ++ path), Event.logWarning m,
          Event.metric (sp ++ "--AlreadyExists")])
      | ErrorCategory.noObjective, some m =>
        (Except.ok none,
         [Event.logDebug ("POST " ++ path), Event.logWarning m,
          Event.metric (sp ++ "--NoObjective")])
      | _, _ =>
        (Except.ok none,
         [Event.logDebug ("POST " ++ path), Event.logWarning text,
          Event.metric (sp ++ "--ERROR")])

/-- The outside world as seen by the startup checks in `ApiBinding.__init__`:
the discovery GET of `openapi.json` (connection failure or a status code) and
the `get_all_from_api("/ct/packages")` result (`none` for a failed GET). -/
structure StartupWorld where
  discovery : Except Unit Nat
  packages : Option (List Body)

/-- How binding construction can end: normally, by `sys.exit(code)`, or with
an uncaught Python exception. -/
inductive StartupOutcome
  | ok
  | exited (code : Nat)
  | crashed (e : PyErr)
deriving DecidableEq

/-- Source `verify_connection`: GET the discovery endpoint; a connection
failure or a status for which `raise_for_status` raises (400-599) logs a
critical message and calls `sys.exit(1)`.  Returns the exit code when the
process terminates. -/
def verify_connection (w : StartupWorld) : Option Nat × List Event :=
  match w.discovery with
  | Except.error _ =>
    (some 1, [Event.logCritical ("Failed to connect to backend, is it running?")])
  | Except.ok status =>
    if raises_for_status status then
      (some 1, [Event.logCritical ("Failed to connect to backend, is it running?")])
    else (none, [])

/-- The mandatory CT package catalogue names of `check_for_ct_packages`. -/
def mandatory_packages : List String :=
  ["ADAM CT", "CDASH CT", "DEFINE-XML CT", "SDTM CT"]

/-- The optional CT package catalogue names of `check_for_ct_packages`. -/
def optional_packages : List String :=
  ["COA CT", "GLOSSARY CT", "PROTOCOL CT", "QRS CT", "QS-FT CT", "SEND CT"]

/-- Source `check_for_ct_packages`: collect each package's `catalogue_name`
(a failed package fetch returns `None`, and iterating it raises `TypeError`);
a missing mandatory package logs a critical message and calls `sys.exit(1)`,
missing optional packages only log a warning. -/
def check_for_ct_packages (w : StartupWorld) : StartupOutcome × List Event :=
  match w.packages with
  | none => (StartupOutcome.crashed PyErr.typeError, [])
  | some packages =>
    let package_names : List (Option String) :=
      packages.map (fun p => bget p ("catalogue_name"))
    let missing := mandatory_packages.filter (fun m => !(package_names.contains (some m)))
    if missing.isEmpty = false then
      (StartupOutcome.exited 1,
       [Event.logCritical ("Missing CT packages: " ++ String.intercalate (",") missing
         ++ ".\nPlease run the clinical standards import before this tool.")])
    else
      let missing_opt := optional_packages.filter (fun m => !(package_names.contains (some m)))
      if missing_opt.isEmpty = false then
        (StartupOutcome.ok,
         [Event.logWarning ("Missing optional CT packages: "
           ++ String.intercalate (",") missing_opt ++ ".")])
      else (StartupOutcome.ok, [])

/-- The startup sequence at the end of `ApiBinding.__init__`: run
`verify_connection`, then, unless the caller is the schema-migration
repository (the `inspect.currentframe` filename test, modelled as the flag
`schemaMigration`), run `check_for_ct_packages`. -/
def binding_startup (w : StartupWorld) (schemaMigration : Bool) :
    StartupOutcome × List Event :=
  match verify_connection w with
  | (some code, ev) => (StartupOutcome.exited code, ev)
  | (none, ev) =>
    if schemaMigration then (StartupOutcome.ok, ev)
    else
      let r := check_for_ct_packages w
      (r.1, ev ++ r.2)

/-- The kinds of asynchronous operation the binding schedules concurrently. -/
inductive OpKind
  | post
  | patchOp
  | newVersionOp
  | approveOp
deriving DecidableEq

/-- One atomic step of an asynchronous operation, as far as the admission
limiter is concerned: acquiring or releasing the semaphore, and the start and
end of the HTTP request (the span between `reqStart` and `reqEnd` is the
request being in flight). -/
inductive Action
  | acquire
  | reqStart
  | reqEnd
  | release
deriving DecidableEq

/-- The action script of each operation, read off the source: only
`post_to_api_async` wraps its request in `async with self.sem`;
`patch_to_api_async`, `new_version_to_api_async`, `approve_async` and
`approve_item_async` issue their requests without touching the semaphore. -/
def script : OpKind → List Action
  | OpKind.post =>
    [Action.acquire, Action.reqStart, Action.reqEnd, Action.release]
  | OpKind.patchOp => [Action.reqStart, Action.reqEnd]
  | OpKind.newVersionOp => [Action.reqStart, Action.reqEnd]
  | OpKind.approveOp => [Action.reqStart, Action.reqEnd]

/-- A scheduled task: its operation kind and the actions it has yet to
execute. -/
abbrev GateTask := OpKind × List Action

/-- The state of the cooperative scheduler: the semaphore's free-permit count
(`asyncio.Semaphore(8)` in `ApiBinding.__init__`) and the task list. -/
structure GateState where
  sem : Nat
  tasks : List GateTask
deriving DecidableEq

/-- Execute the next action of task `i`, if any is enabled: `acquire` blocks
(no step) while the semaphore has no free permit, `release` returns a permit,
request start and end are always enabled. -/
def execTask (s : GateState) (i : Nat) : Option GateState :=
  match s.tasks[i]? with
  | some (k, Action.acquire :: rest) =>
    if s.sem = 0 then none
    else some ⟨s.sem - 1, s.tasks.set i (k, rest)⟩
  | some (k, Action.release :: rest) => some ⟨s.sem + 1, s.tasks.set i (k, rest)⟩
  | some (k, Action.reqStart :: rest) => some ⟨s.sem, s.tasks.set i (k, rest)⟩
  | some (k, Action.reqEnd :: rest) => some ⟨s.sem, s.tasks.set i (k, rest)⟩
  | _ => none

/-- The interleaving step relation: some task executes its next action. -/
def GateStep (s s' : GateState) : Prop :=
  ∃ i, execTask s i = some s'

/-- A batch of concurrently scheduled operations, about to start, with the
semaphore's 8 permits free. -/
def gateInit (ops : List OpKind) : GateState :=
  ⟨8, ops.map (fun k => (k, script k))⟩

/-- Reachability under the interleaving semantics. -/
def GateReachable (s s' : GateState) : Prop :=
  Relation.ReflTransGen GateStep s s'

/-- A task whose HTTP request is currently outstanding: it has executed
`reqStart` and its next pending action is `reqEnd`. -/
def inFlight (t : GateTask) : Bool :=
  t.2.head? = some Action.reqEnd

/-- A task currently admitted by the semaphore: it has executed `acquire`
and has not yet executed `release`. -/
def admitted (t : GateTask) : Bool :=
  t.2.contains Action.release && !(t.2.contains Action.acquire)

/-- The number of simultaneously outstanding HTTP requests. -/
def countInFlight (s : GateState) : Nat :=
  s.tasks.countP inFlight

/-- The number of simultaneously outstanding POST requests issued through
`post_to_api_async`. -/
def countInFlightPosts (s : GateState) : Nat :=
  s.tasks.countP (fun t => t.1 = OpKind.post && inFlight t)

section Helpers

/-- With no log file configured (as in both workflow orchestrators) and a
JSON response, `post_to_api_async` returns the status and parsed body, and
its trace is exactly the POST request. -/
lemma post_to_api_async_ok {server : AsyncServer} {base url : String} {body : Body}
    {st : Nat} {result : Body}
    (h : server (AsyncReq.post (path_join [base, url]) body) = (st, Except.ok result)) :
    post_to_api_async server base url body none =
      (Except.ok (st, result), [Event.req (AsyncReq.post (path_join [base, url]) body)]) := by
  simp only [post_to_api_async, h]

/-- The trace of `approve_item_async` always starts with the approval request
to `base/url/uid/approvals`, and that is its only approval request. -/
lemma approve_item_async_trace (server : AsyncServer) (base uid url : String) :
    (approve_item_async server base uid url).2.countP isApproveReq = 1 ∧
    (approve_item_async server base uid url).2.head? =
      some (Event.req (AsyncReq.approve (path_join [base, url, uid, "approvals"]))) := by
  rcases h : server (AsyncReq.approve (path_join [base, url, uid, "approvals"])) with ⟨status, pb⟩
  by_cases hok : response_ok status <;> rcases pb with b | t <;>
    simp [approve_item_async, h, hok, isApproveReq, List.countP_cons]

end Helpers

/-- C9: `get_all_identifiers` tolerates a `None` responses argument only in
the mapping mode: with a `value` field requested it returns the empty
mapping, while in identifier-list mode (`value = None`) the `None` argument
is unguarded and the call raises `TypeError` instead of returning a list. -/
theorem get_all_identifiers_none_guard (identifier value : String) :
    get_all_identifiers none identifier (some value) = Except.ok (Sum.inr []) ∧
    get_all_identifiers none identifier none = Except.error PyErr.typeError := by
  exact ⟨rfl, rfl⟩

/-- C6: when approval is requested but the successful post response has no
`uid`, no approval request is issued, the error condition is logged, and the
workflow ends there, returning the post response. -/
theorem post_then_approve_no_uid_skips_approval (server : AsyncServer) (base : String)
    (data : PostData) (st : Nat) (body : Body)
    (hsrv : server (AsyncReq.post (path_join [base, data.path]) data.body)
      = (st, Except.ok body))
    (hst : st < 400) (huid : bget body ("uid") = none) :
    (post_then_approve server base data true).2.countP isApproveReq = 0 ∧
    Event.logError ("No uid returned, unable to approve")
      ∈ (post_then_approve server base data true).2 ∧
    (post_then_approve server base data true).1 = Except.ok (some body) := by
  unfold post_then_approve
  rw [post_to_api_async_ok hsrv]
  have : ¬ (400 ≤ st) := by omega
  simp [this, huid, isApproveReq, List.countP_cons]

/-- C6 witness: a concrete run, with a 201 response whose body has no
`uid`. -/
theorem post_then_approve_no_uid_skips_approval_witness :
    (post_then_approve (fun _ => (201, Except.ok [])) ("b") ⟨"p", [], "ap"⟩ true).2.countP
        isApproveReq = 0 ∧
    Event.logError ("No uid returned, unable to approve")
      ∈ (post_then_approve (fun _ => (201, Except.ok [])) ("b") ⟨"p", [], "ap"⟩ true).2 ∧
    (post_then_approve (fun _ => (201, Except.ok [])) ("b") ⟨"p", [], "ap"⟩ true).1
      = Except.ok (some []) :=
  post_then_approve_no_uid_skips_approval (fun _ => (201, Except.ok [])) ("b")
    ⟨"p", [], "ap"⟩ 201 [] rfl (by omega) rfl

/-- C2: when the post succeeds (status below 400) with a body carrying a
`uid` and approval was requested, exactly one approval request is issued, it
targets `approve_path/uid/approvals`, and it comes only after the completed
post request and the fixed pre-approval sleep. -/
theorem post_then_approve_single_approval (server : AsyncServer) (base : String)
    (data : PostData) (st : Nat) (body : Body) (uid : String)
    (hsrv : server (AsyncReq.post (path_join [base, data.path]) data.body)
      = (st, Except.ok body))
    (hst : st < 400) (huid : bget body ("uid") = some uid) :
    (post_then_approve server base data true).2.countP isApproveReq = 1 ∧
    (∃ d i, (post_then_approve server base data true).2 =
      [Event.logDebug d, Event.req (AsyncReq.post (path_join [base, data.path]) data.body),
       Event.sleep SLEEP_BEFORE_APPROVE_MS, Event.logInfo i]
      ++ (approve_item_async server base uid data.approve_path).2) ∧
    (approve_item_async server base uid data.approve_path).2.head? =
      some (Event.req (AsyncReq.approve
        (path_join [base, data.approve_path, uid, "approvals"]))) := by
  have happ := approve_item_async_trace server base uid data.approve_path
  unfold post_then_approve
  rw [post_to_api_async_ok hsrv]
  have hn : ¬ (400 ≤ st) := by omega
  rcases h2 : approve_item_async server base uid data.approve_path with ⟨res, tr2⟩
  rw [h2] at happ
  rcases res with e | r
  · simp only [hn, huid, if_false, ite_false, if_neg hn]
    simp [h2, List.countP_append, List.countP_cons, isApproveReq, happ.1, happ.2]
  · rcases r with ⟨sta, resulta⟩
    simp only [hn, huid, if_false, ite_false, if_neg hn]
    simp [h2, List.countP_append, List.countP_cons, isApproveReq, happ.1, happ.2]

section Helpers2

/-- `patch_to_api_async` always issues its PATCH request. -/
lemma patch_to_api_async_req (server : AsyncServer) (base path : String) (body : Body) :
    Event.req (AsyncReq.patchReq (path_join [base, path]) body)
      ∈ (patch_to_api_async server base path body).2 := by
  rcases h : server (AsyncReq.patchReq (path_join [base, path]) body) with ⟨st, pb⟩
  rcases pb with b | t <;> simp [patch_to_api_async, h]

/-- Whatever happens after the patch step, the trace of `nvpa_from_patch`
extends the version-step trace followed by the patch call's trace. -/
lemma nvpa_from_patch_trace (server : AsyncServer) (base : String)
    (data : NewVersionData) (approve : Bool) (ev0 : List Event) :
    ∃ rest, (nvpa_from_patch server base data approve ev0).2
      = ev0 ++ (patch_to_api_async server base data.patch_path data.body).2 ++ rest := by
  unfold nvpa_from_patch
  rcases h : patch_to_api_async server base data.patch_path data.body with ⟨⟨st1, r1⟩, tr1⟩
  simp only [h]
  by_cases h1 : status_ok st1 = false
  · exact ⟨[Event.logError ("Failed to patch: " ++ get_error_message r1)], by simp [h1]⟩
  · rcases h2 : bget r1 ("uid") with _ | uid
    · by_cases ha : approve = true
      · exact ⟨[Event.logError ("No uid returned, unable to approve the new version")],
          by simp [h1, h2, ha]⟩
      · exact ⟨[], by simp [h1, h2, ha]⟩
    · by_cases ha : approve = true
      · rcases h3 : approve_item_async server base uid data.approve_path with ⟨res, tr2⟩
        rcases res with e | r
        · exact ⟨Event.sleep SLEEP_BEFORE_APPROVE_MS :: tr2, by simp [h1, h2, ha, h3]⟩
        · rcases r with ⟨st2, r2⟩
          by_cases h4 : status_ok st2 = false
          · exact ⟨Event.sleep SLEEP_BEFORE_APPROVE_MS :: (tr2
              ++ [Event.logError ("Failed to approve the new version of: " ++ uid)]),
              by simp [h1, h2, ha, h3, h4]⟩
          · exact ⟨Event.sleep SLEEP_BEFORE_APPROVE_MS :: tr2, by simp [h1, h2, ha, h3, h4]⟩
      · exact ⟨[], by simp [h1, h2, ha]⟩

end Helpers2

/-- C5: in the new-version workflow, a version-creation failure whose message
contains the draft-state text is not fatal (warning logged, patch step still
executed); any other version-creation failure stops the workflow before the
patch, and a patch failure stops it before the approval. -/
theorem new_version_draft_not_fatal (server : AsyncServer) (base : String)
    (data : NewVersionData) (approve : Bool) :
    (∀ st0 b0,
      server (AsyncReq.newVersion (path_join [base, data.new_path])) = (st0, Except.ok b0) →
      status_ok st0 = false →
      strContains (get_error_message b0)
        ("New draft version can be created only for FINAL versions") = true →
      Event.req (AsyncReq.patchReq (path_join [base, data.patch_path]) data.body)
        ∈ (new_version_patch_then_approve server base data approve).2 ∧
      Event.logWarning ("Failed to create new version, item is already in DRAFT")
        ∈ (new_version_patch_then_approve server base data approve).2) ∧
    (∀ st0 b0,
      server (AsyncReq.newVersion (path_join [base, data.new_path])) = (st0, Except.ok b0) →
      status_ok st0 = false →
      strContains (get_error_message b0)
        ("New draft version can be created only for FINAL versions") = false →
      (new_version_patch_then_approve server base data approve).2.countP isPatchReq = 0 ∧
      (new_version_patch_then_approve server base data approve).2.countP isApproveReq = 0 ∧
      (new_version_patch_then_approve server base data approve).1 = Except.ok none) ∧
    (∀ st0 b0 st1 b1,
      server (AsyncReq.newVersion (path_join [base, data.new_path])) = (st0, Except.ok b0) →
      (status_ok st0 = true ∨
        strContains (get_error_message b0)
          ("New draft version can be created only for FINAL versions") = true) →
      server (AsyncReq.patchReq (path_join [base, data.patch_path]) data.body)
        = (st1, Except.ok b1) →
      status_ok st1 = false →
      (new_version_patch_then_approve server base data approve).2.countP isApproveReq = 0 ∧
      (new_version_patch_then_approve server base data approve).1 = Except.ok none) := by
  refine ⟨?_, ?_, ?_⟩
  · intro st0 b0 h0 hnok hdraft
    have hred : new_version_patch_then_approve server base data approve
        = nvpa_from_patch server base data approve
          [Event.req (AsyncReq.newVersion (path_join [base, data.new_path])),
           Event.logWarning ("Failed to create new version, item is already in DRAFT")] := by
      simp [new_version_patch_then_approve, new_version_to_api_async, h0, hnok, hdraft]
    obtain ⟨rest, hr⟩ := nvpa_from_patch_trace server base data approve
      [Event.req (AsyncReq.newVersion (path_join [base, data.new_path])),
       Event.logWarning ("Failed to create new version, item is already in DRAFT")]
    rw [hred, hr]
    have hp := patch_to_api_async_req server base data.patch_path data.body
    constructor
    · simp only [List.mem_append]
      left; right
      exact hp
    · simp
  · intro st0 b0 h0 hnok hmiss
    have hred : new_version_patch_then_approve server base data approve
        = (Except.ok none,
           [Event.req (AsyncReq.newVersion (path_join [base, data.new_path])),
            Event.logError ("Failed to create new version: " ++ get_error_message b0)]) := by
      simp [new_version_patch_then_approve, new_version_to_api_async, h0, hnok, hmiss]
    rw [hred]
    simp [isPatchReq, isApproveReq, List.countP_cons]
  · intro st0 b0 st1 b1 h0 hv h1 hnok1
    have hfrom : ∀ ev0, (nvpa_from_patch server base data approve ev0).2
          = ev0 ++ [Event.req (AsyncReq.patchReq (path_join [base, data.patch_path]) data.body),
              Event.logError ("Failed to patch: " ++ get_error_message b1)] ∧
        (nvpa_from_patch server base data approve ev0).1 = Except.ok none := by
      intro ev0
      constructor <;> simp [nvpa_from_patch, patch_to_api_async, h1, hnok1]
    by_cases hok0 : status_ok st0 = true
    · have hred : new_version_patch_then_approve server base data approve
          = nvpa_from_patch server base data approve
            [Event.req (AsyncReq.newVersion (path_join [base, data.new_path]))] := by
        simp [new_version_patch_then_approve, new_version_to_api_async, h0, hok0]
      rw [hred, (hfrom _).2, (hfrom _).1]
      simp [isApproveReq, List.countP_append, List.countP_cons]
    · have hdraft : strContains (get_error_message b0)
          ("New draft version can be created only for FINAL versions") = true := by
        rcases hv with hv | hv
        · exact absurd hv hok0
        · exact hv
      have hnok : status_ok st0 = false := by
        cases h : status_ok st0
        · rfl
        · exact absurd h hok0
      have hred : new_version_patch_then_approve server base data approve
          = nvpa_from_patch server base data approve
            [Event.req (AsyncReq.newVersion (path_join [base, data.new_path])),
             Event.logWarning ("Failed to create new version, item is already in DRAFT")] := by
        simp [new_version_patch_then_approve, new_version_to_api_async, h0, hnok, hdraft]
      rw [hred, (hfrom _).2, (hfrom _).1]
      simp [isApproveReq, List.countP_append, List.countP_cons]

/-- C10: once the patch step of the new-version workflow succeeds with a
`uid` and approval is requested, the workflow's return value is the
patch-step response body, whatever status the approval request comes back
with (its result is never returned), so the caller cannot tell a successful
approval from a failed one by the return value. -/
theorem new_version_returns_patch_response (server : AsyncServer) (base : String)
    (data : NewVersionData) (st0 : Nat) (b0 : Body) (st1 : Nat) (b1 : Body)
    (uid : String) (sta : Nat) (pa : Except String Body)
    (h0 : server (AsyncReq.newVersion (path_join [base, data.new_path]))
      = (st0, Except.ok b0))
    (hok0 : status_ok st0 = true)
    (h1 : server (AsyncReq.patchReq (path_join [base, data.patch_path]) data.body)
      = (st1, Except.ok b1))
    (hok1 : status_ok st1 = true)
    (huid : bget b1 ("uid") = some uid)
    (h2 : server (AsyncReq.approve (path_join [base, data.approve_path, uid, "approvals"]))
      = (sta, pa))
    (hnc : response_ok sta = true → ∃ ba, pa = Except.ok ba) :
    (new_version_patch_then_approve server base data true).1 = Except.ok (some b1) := by
  have hred : new_version_patch_then_approve server base data true
      = nvpa_from_patch server base data true
        [Event.req (AsyncReq.newVersion (path_join [base, data.new_path]))] := by
    simp [new_version_patch_then_approve, new_version_to_api_async, h0, hok0]
  rw [hred]
  unfold nvpa_from_patch
  simp only [patch_to_api_async, h1, hok1, huid]
  by_cases hra : response_ok sta = true
  · obtain ⟨ba, hba⟩ := hnc hra
    subst hba
    simp [approve_item_async, h2, hra, hok1]
    split_ifs <;> simp_all
  · have hsa : status_ok sta = false := by
      cases h : status_ok sta
      · rfl
      · exfalso
        simp only [status_ok, Bool.and_eq_true, decide_eq_true_eq] at h
        have hlt : sta < 400 := by omega
        simp [response_ok, hlt] at hra
    simp [approve_item_async, h2, hra, hsa, hok1]

/-- Concrete transport used by the C10 witness: version and patch succeed
(the patch body carries `uid = U1`), the approval request fails with 500. -/
def serverC10 : AsyncReq → Nat × Except String Body
  | AsyncReq.newVersion _ => (200, Except.ok [])
  | AsyncReq.patchReq _ _ => (200, Except.ok [("uid", "U1")])
  | _ => (500, Except.ok [])

/-- C10 witness: with a failing approval request, the workflow still returns
the patch response. -/
theorem new_version_returns_patch_response_witness :
    (new_version_patch_then_approve serverC10 ("b") ⟨"n", "p", [], "ap"⟩ true).1
      = Except.ok (some [("uid", "U1")]) :=
  new_version_returns_patch_response serverC10 ("b") ⟨"n", "p", [], "ap"⟩
    200 [] 200 [("uid", "U1")] ("U1") 500 (Except.ok []) rfl (by decide) rfl (by decide)
    (by decide) rfl (fun h => by simp [response_ok] at h)

/-- Concrete transport used by the C2 witness: the post succeeds with a body
carrying `uid = U1`; everything else succeeds with an empty body. -/
def serverC2 : AsyncReq → Nat × Except String Body
  | AsyncReq.post _ _ => (201, Except.ok [("uid", "U1")])
  | _ => (200, Except.ok [])

/-- C2 witness: a concrete create-then-approve run with a 201 post response
carrying a `uid`. -/
theorem post_then_approve_single_approval_witness :
    (post_then_approve serverC2 ("b") ⟨"p", [("name", "X")], "ap"⟩ true).2.countP
        isApproveReq = 1 ∧
    (∃ d i, (post_then_approve serverC2 ("b") ⟨"p", [("name", "X")], "ap"⟩ true).2 =
      [Event.logDebug d, Event.req (AsyncReq.post (path_join [("b"), ("p")]) [("name", "X")]),
       Event.sleep SLEEP_BEFORE_APPROVE_MS, Event.logInfo i]
      ++ (approve_item_async serverC2 ("b") ("U1") ("ap")).2) ∧
    (approve_item_async serverC2 ("b") ("U1") ("ap")).2.head? =
      some (Event.req (AsyncReq.approve (path_join [("b"), ("ap"), ("U1"), "approvals"]))) :=
  post_then_approve_single_approval serverC2 ("b") ⟨"p", [("name", "X")], "ap"⟩
    201 [("uid", "U1")] ("U1") rfl (by omega) rfl

/-- Concrete transport for part one of the C5 witness: version creation fails
because the item is already in draft. -/
def serverC5draft : AsyncReq → Nat × Except String Body
  | AsyncReq.newVersion _ =>
    (400, Except.ok [("message", "New draft version can be created only for FINAL versions")])
  | AsyncReq.patchReq _ _ => (200, Except.ok [("uid", "U1")])
  | _ => (200, Except.ok [])

/-- Concrete transport for part two of the C5 witness: version creation fails
with an unrelated message. -/
def serverC5other : AsyncReq → Nat × Except String Body
  | AsyncReq.newVersion _ => (404, Except.ok [("message", "not found")])
  | AsyncReq.patchReq _ _ => (200, Except.ok [("uid", "U1")])
  | _ => (200, Except.ok [])

/-- Concrete transport for part three of the C5 witness: version creation
succeeds, the patch fails. -/
def serverC5patchfail : AsyncReq → Nat × Except String Body
  | AsyncReq.newVersion _ => (201, Except.ok [])
  | AsyncReq.patchReq _ _ => (400, Except.ok [("message", "boom")])
  | _ => (200, Except.ok [])

/-- C5 witness: concrete runs of the three parts — draft-state failure still
patches, an unrelated version failure stops before the patch, a patch failure
stops before the approval. -/
theorem new_version_draft_not_fatal_witness :
    (Event.req (AsyncReq.patchReq (path_join [("b"), ("p")]) [])
        ∈ (new_version_patch_then_approve serverC5draft ("b") ⟨"n", "p", [], "ap"⟩ true).2 ∧
      Event.logWarning ("Failed to create new version, item is already in DRAFT")
        ∈ (new_version_patch_then_approve serverC5draft ("b") ⟨"n", "p", [], "ap"⟩ true).2) ∧
    ((new_version_patch_then_approve serverC5other ("b") ⟨"n", "p", [], "ap"⟩ true).2.countP
        isPatchReq = 0 ∧
      (new_version_patch_then_approve serverC5other ("b") ⟨"n", "p", [], "ap"⟩ true).2.countP
        isApproveReq = 0 ∧
      (new_version_patch_then_approve serverC5other ("b") ⟨"n", "p", [], "ap"⟩ true).1
        = Except.ok none) ∧
    ((new_version_patch_then_approve serverC5patchfail ("b") ⟨"n", "p", [], "ap"⟩ true).2.countP
        isApproveReq = 0 ∧
      (new_version_patch_then_approve serverC5patchfail ("b") ⟨"n", "p", [], "ap"⟩ true).1
        = Except.ok none) :=
  ⟨(new_version_draft_not_fatal serverC5draft ("b") ⟨"n", "p", [], "ap"⟩ true).1
      400 [("message", "New draft version can be created only for FINAL versions")]
      rfl (by decide) (by decide),
   (new_version_draft_not_fatal serverC5other ("b") ⟨"n", "p", [], "ap"⟩ true).2.1
      404 [("message", "not found")] rfl (by decide) (by decide),
   (new_version_draft_not_fatal serverC5patchfail ("b") ⟨"n", "p", [], "ap"⟩ true).2.2
      201 [] 400 [("message", "boom")] rfl (Or.inl (by decide)) rfl (by decide)⟩

/-- C4 counterexample: the claim says the classifier scans the `message` or
`detail` field, but the code only ever looks at `message`: a failed body
whose `detail` field says "Study not found" would be NotFound under the
claimed scan, yet the code classifies it into the generic `--ERROR`
bucket. -/
theorem classifier_ignores_detail_counterexample :
    spec_classifier postErrorRules [("detail", "Study not found")] = ErrorCategory.notFound ∧
    classify_post_error [("detail", "Study not found")] = ErrorCategory.generic := by
  exact ⟨by decide, by decide⟩

/-- C4 (amended: the classifier scans the ordered substring set in the
`message` field only; a body without a `message` field — even one with a
matching `detail` — is Generic): the code's classifier equals first-match
over the ordered rule table on the `message` field, and the three concrete
examples classify as claimed. -/
theorem classifier_message_only :
    (∀ b, bget b ("message") = none → classify_post_error b = ErrorCategory.generic) ∧
    (∀ b m, bget b ("message") = some m →
      classify_post_error b = firstMatchCategory postErrorRules m) ∧
    classify_post_error [("message", "Duplicate template already exists")]
      = ErrorCategory.alreadyExists ∧
    classify_post_error [("message", "Study not found")] = ErrorCategory.notFound ∧
    classify_post_error [("detail", "x")] = ErrorCategory.generic := by
  refine ⟨?_, ?_, by decide, by decide, by decide⟩
  · intro b hb
    simp [classify_post_error, hb]
  · intro b m hb
    simp only [classify_post_error, hb, firstMatchCategory, postErrorRules, List.find?]
    by_cases h1 : strContains m ("already exists") <;>
    by_cases h2 : strContains m ("Duplicate template") <;>
    by_cases h3 : strContains m ("already has") <;>
    by_cases h4 : strContains m ("not found") <;>
    by_cases h5 : strContains m ("does not exist") <;>
    simp [h1, h2, h3, h4, h5]

/-- C4 witness: the amended theorem applied at a body with only a `detail`
field and at a body whose message matches the third rule. -/
theorem classifier_message_only_witness :
    classify_post_error [("detail", "z")] = ErrorCategory.generic ∧
    classify_post_error [("message", "it already has children")]
      = firstMatchCategory postErrorRules ("it already has children") :=
  ⟨(classifier_message_only).1 [("detail", "z")] rfl,
   (classifier_message_only).2.1 [("message", "it already has children")]
     ("it already has children") rfl⟩

/-- C7 counterexample: the claim says any non-2xx discovery status is fatal,
but `raise_for_status` only raises for 400-599: a 302 discovery response (not
a 2xx status) lets construction proceed without any exit or critical log. -/
theorem startup_redirect_not_fatal_counterexample :
    status_ok 302 = false ∧
    binding_startup ⟨Except.ok 302, none⟩ true = (StartupOutcome.ok, []) := by
  exact ⟨by decide, by decide⟩

/-- C7 (amended: the discovery GET is fatal on connection failure or an HTTP
error status 400-599, not on every non-2xx status): connection failure or an
error status logs critical and exits 1; outside the schema-migration context
a missing mandatory CT package logs critical and exits 1 while missing
optional packages only log a warning; in the schema-migration context the
package check is skipped entirely. -/
theorem startup_verifier_fatal_conditions :
    (∀ (w : StartupWorld) (sm : Bool), w.discovery = Except.error () →
      (binding_startup w sm).1 = StartupOutcome.exited 1 ∧
      ∃ m, Event.logCritical m ∈ (binding_startup w sm).2) ∧
    (∀ (w : StartupWorld) (sm : Bool) (st : Nat), w.discovery = Except.ok st →
      400 ≤ st → st < 600 →
      (binding_startup w sm).1 = StartupOutcome.exited 1 ∧
      ∃ m, Event.logCritical m ∈ (binding_startup w sm).2) ∧
    (∀ (w : StartupWorld) (st : Nat) (pkgs : List Body), w.discovery = Except.ok st →
      raises_for_status st = false → w.packages = some pkgs →
      (∃ m ∈ mandatory_packages,
        ¬ (some m) ∈ pkgs.map (fun p => bget p ("catalogue_name"))) →
      (binding_startup w false).1 = StartupOutcome.exited 1 ∧
      ∃ m, Event.logCritical m ∈ (binding_startup w false).2) ∧
    (∀ (w : StartupWorld) (st : Nat) (pkgs : List Body), w.discovery = Except.ok st →
      raises_for_status st = false → w.packages = some pkgs →
      (∀ m ∈ mandatory_packages,
        (some m) ∈ pkgs.map (fun p => bget p ("catalogue_name"))) →
      (∃ o ∈ optional_packages,
        ¬ (some o) ∈ pkgs.map (fun p => bget p ("catalogue_name"))) →
      (binding_startup w false).1 = StartupOutcome.ok ∧
      ∃ m, Event.logWarning m ∈ (binding_startup w false).2) ∧
    (∀ (w : StartupWorld) (st : Nat), w.discovery = Except.ok st →
      raises_for_status st = false →
      binding_startup w true = (StartupOutcome.ok, [])) := by
  refine ⟨?_, ?_, ?_, ?_, ?_⟩
  · intro w sm h
    simp [binding_startup, verify_connection, h]
  · intro w sm st h h4 h6
    have hr : raises_for_status st = true := by
      simp only [raises_for_status, Bool.and_eq_true, decide_eq_true_eq]
      exact ⟨h4, h6⟩
    simp [binding_startup, verify_connection, h, hr]
  · intro w st pkgs h hr hp hmiss
    obtain ⟨m, hm, hnot⟩ := hmiss
    have hfil : (mandatory_packages.filter
        (fun m => !((pkgs.map (fun p => bget p ("catalogue_name"))).contains (some m)))).isEmpty
          = false := by
      have hc : (pkgs.map (fun p => bget p ("catalogue_name"))).contains (some m) = false := by
        rw [← Bool.not_eq_true]
        intro hc
        exact hnot (List.elem_iff.mp hc)
      have hmem : m ∈ mandatory_packages.filter
          (fun m => !((pkgs.map (fun p => bget p ("catalogue_name"))).contains (some m))) :=
        List.mem_filter.mpr ⟨hm, by simp only [hc, Bool.not_false]⟩
      cases hfe : mandatory_packages.filter
          (fun m => !((pkgs.map (fun p => bget p ("catalogue_name"))).contains (some m))) with
      | nil => rw [hfe] at hmem; cases hmem
      | cons a t => rfl
    have hb : binding_startup w false = check_for_ct_packages w := by
      simp [binding_startup, verify_connection, h, hr]
    rw [hb]
    unfold check_for_ct_packages
    rw [hp]
    simp only [hfil]
    simp
  · intro w st pkgs h hr hp hall hopt
    obtain ⟨o, ho, honot⟩ := hopt
    have hfil : (mandatory_packages.filter
        (fun m => !((pkgs.map (fun p => bget p ("catalogue_name"))).contains (some m)))).isEmpty
          = true := by
      rw [List.isEmpty_iff]
      refine List.filter_eq_nil_iff.mpr ?_
      intro a ha
      have hc : (pkgs.map (fun p => bget p ("catalogue_name"))).contains (some a) = true :=
        List.elem_iff.mpr (hall a ha)
      simp only [hc, Bool.not_true]
      simp
    have hco : (pkgs.map (fun p => bget p ("catalogue_name"))).contains (some o) = false := by
      rw [← Bool.not_eq_true]
      intro hc
      exact honot (List.elem_iff.mp hc)
    have hmem : o ∈ optional_packages.filter
        (fun m => !((pkgs.map (fun p => bget p ("catalogue_name"))).contains (some m))) :=
      List.mem_filter.mpr ⟨ho, by simp only [hco, Bool.not_false]⟩
    have hfil2 : (optional_packages.filter
        (fun m => !((pkgs.map (fun p => bget p ("catalogue_name"))).contains (some m)))).isEmpty
          = false := by
      cases hfe : optional_packages.filter
          (fun m => !((pkgs.map (fun p => bget p ("catalogue_name"))).contains (some m))) with
      | nil => rw [hfe] at hmem; cases hmem
      | cons a t => rfl
    have hb : binding_startup w false = check_for_ct_packages w := by
      simp [binding_startup, verify_connection, h, hr]
    rw [hb]
    unfold check_for_ct_packages
    rw [hp]
    simp only [hfil, hfil2]
    simp
  · intro w st h hr
    simp [binding_startup, verify_connection, h, hr]

/-- Package list used by the C7 witness: all four mandatory CT packages
installed, none of the optional ones. -/
def pkgsAllMandatory : List Body :=
  [[("catalogue_name", "ADAM CT")], [("catalogue_name", "CDASH CT")],
   [("catalogue_name", "DEFINE-XML CT")], [("catalogue_name", "SDTM CT")]]

/-- C7 witness: concrete startup runs for each fatal and non-fatal case. -/
theorem startup_verifier_fatal_conditions_witness :
    ((binding_startup ⟨Except.error (), none⟩ true).1 = StartupOutcome.exited 1 ∧
      ∃ m, Event.logCritical m ∈ (binding_startup ⟨Except.error (), none⟩ true).2) ∧
    ((binding_startup ⟨Except.ok 500, none⟩ true).1 = StartupOutcome.exited 1 ∧
      ∃ m, Event.logCritical m ∈ (binding_startup ⟨Except.ok 500, none⟩ true).2) ∧
    ((binding_startup ⟨Except.ok 200, some []⟩ false).1 = StartupOutcome.exited 1 ∧
      ∃ m, Event.logCritical m ∈ (binding_startup ⟨Except.ok 200, some []⟩ false).2) ∧
    ((binding_startup ⟨Except.ok 200, some pkgsAllMandatory⟩ false).1 = StartupOutcome.ok ∧
      ∃ m, Event.logWarning m
        ∈ (binding_startup ⟨Except.ok 200, some pkgsAllMandatory⟩ false).2) ∧
    binding_startup ⟨Except.ok 204, none⟩ true = (StartupOutcome.ok, []) :=
  ⟨(startup_verifier_fatal_conditions).1 ⟨Except.error (), none⟩ true rfl,
   (startup_verifier_fatal_conditions).2.1 ⟨Except.ok 500, none⟩ true 500 rfl
     (by omega) (by omega),
   (startup_verifier_fatal_conditions).2.2.1 ⟨Except.ok 200, some []⟩ 200 [] rfl
     (by decide) rfl (by decide),
   (startup_verifier_fatal_conditions).2.2.2.1 ⟨Except.ok 200, some pkgsAllMandatory⟩
     200 pkgsAllMandatory rfl (by decide) rfl (by decide) (by decide),
   (startup_verifier_fatal_conditions).2.2.2.2 ⟨Except.ok 204, none⟩ 204 rfl (by decide)⟩

/-- C8 counterexample: the claim says the caller never receives a thrown
fault type from a failed operation, but `get_libraries` calls
`raise_for_status`, so a failed (status 500) GET raises `HTTPError` into the
caller instead of returning a falsy value. -/
theorem get_libraries_raises_counterexample :
    response_ok 500 = false ∧
    (get_libraries 500 (Except.ok [])).1 = Except.error PyErr.httpError := by
  exact ⟨by decide, rfl⟩

/-- C8 (amended: the log-and-return-None contract holds for the classified
request helpers such as `simple_post_to_api`, but the `raise_for_status`
based operations — `get_libraries`, `create_library` and the other getters —
do propagate a thrown fault to the caller on a failed response): a failed
JSON-bodied `simple_post_to_api` returns Python `None` with a metrics
increment, while `get_libraries`/`create_library` raise `HTTPError` on any
4xx/5xx status. -/
theorem failures_return_none_vs_raise :
    (∀ (path : String) (sp : Option String) (st : Nat) (b : Body),
      response_ok st = false →
      (simple_post_to_api path sp st (Except.ok b)).1 = Except.ok none ∧
      ∃ k, Event.metric k ∈ (simple_post_to_api path sp st (Except.ok b)).2) ∧
    (∀ (st : Nat) (libs : Except String (List Body)), raises_for_status st = true →
      (get_libraries st libs).1 = Except.error PyErr.httpError ∧
      (create_library st).1 = Except.error PyErr.httpError) := by
  constructor
  · intro path sp st b hst
    unfold simple_post_to_api
    rcases hc : classify_simple_post_error b with _ | _ | _ | _ <;>
      rcases hm : bget b ("message") with _ | m <;>
      simp [hst, hc, hm]
  · intro st libs hst
    constructor <;> simp [get_libraries, create_library, hst]

/-- C8 witness: a concrete failed post returning `None` plus a metric, and
concrete 500-status raises from the two `raise_for_status` operations. -/
theorem failures_return_none_vs_raise_witness :
    ((simple_post_to_api ("p") none 409 (Except.ok [("message", "it already exists")])).1
        = Except.ok none ∧
      ∃ k, Event.metric k ∈ (simple_post_to_api ("p") none 409
        (Except.ok [("message", "it already exists")])).2) ∧
    ((get_libraries 500 (Except.ok [[("name", "Sponsor")]])).1 = Except.error PyErr.httpError ∧
      (create_library 500).1 = Except.error PyErr.httpError) :=
  ⟨(failures_return_none_vs_raise).1 ("p") none 409 [("message", "it already exists")]
      (by decide),
   (failures_return_none_vs_raise).2 500 (Except.ok [[("name", "Sponsor")]]) (by decide)⟩

section PagedHelpers

variable {α : Type}

/-- `range'` with step one is strictly increasing. -/
lemma range1_pairwise_lt (n s : Nat) : (List.range' s n).Pairwise (· < ·) := by
  induction n generalizing s with
  | zero => simp
  | succ n ih =>
    rw [List.range'_succ s n 1]
    refine List.Pairwise.cons ?_ (ih (s + 1))
    intro a ha
    have := List.mem_range'_1.mp ha
    omega

/-- Concatenating pages that all hold exactly `ps` items yields
`number-of-pages * ps` items. -/
lemma flatMap_length_of_full (page : Nat → Option (List α)) (ps : Nat) :
    ∀ l : List Nat, (∀ p ∈ l, ((page p).getD []).length = ps) →
      (l.flatMap (fun p => (page p).getD [])).length = l.length * ps := by
  intro l
  induction l with
  | nil => simp
  | cons a t ih =>
    intro h
    simp only [List.flatMap_cons, List.length_append, List.length_cons,
      h a (by simp), ih (fun p hp => h p (by simp [hp]))]
    ring

/-- Complete characterisation of the paging loop when the page size is
positive and enough fuel is supplied: it requests exactly the consecutive
pages `pn+1 .. m`, where `m` is the least page index at or above `pn`
covering the declared total, and succeeds with the accumulated items when
every one of those pages is served. -/
lemma pagedLoopAux_spec (page : Nat → Option (List α)) (count ps : Nat) :
    ∀ (fuel pn : Nat) (acc : List α),
      count ≤ ps * (pn + fuel) →
      (∀ p, pn < p → ps * (p - 1) < count → (page p).isSome) →
      ∃ m, pn ≤ m ∧ count ≤ ps * m ∧ (∀ k, pn ≤ k → k < m → ps * k < count) ∧
        pagedLoopAux page count ps fuel pn acc =
          (Except.ok (acc ++ (List.range' (pn + 1) (m - pn)).flatMap
            (fun p => (page p).getD [])),
           List.range' (pn + 1) (m - pn)) := by
  intro fuel
  induction fuel with
  | zero =>
    intro pn acc hfuel hall
    have hle : count ≤ ps * pn := by simpa using hfuel
    refine ⟨pn, Nat.le_refl pn, hle, by omega, ?_⟩
    simp [pagedLoopAux, Nat.not_lt.mpr hle]
  | succ fuel ih =>
    intro pn acc hfuel hall
    by_cases hlt : ps * pn < count
    · have hs : (page (pn + 1)).isSome := hall (pn + 1) (by omega) (by simpa using hlt)
      obtain ⟨items, hitems⟩ := Option.isSome_iff_exists.mp hs
      have hfuel' : count ≤ ps * (pn + 1 + fuel) := by
        have : pn + (fuel + 1) = pn + 1 + fuel := by omega
        rw [← this]
        exact hfuel
      have hall' : ∀ p, pn + 1 < p → ps * (p - 1) < count → (page p).isSome :=
        fun p hp h2 => hall p (by omega) h2
      obtain ⟨m, hm1, hm2, hm3, heq⟩ := ih (pn + 1) (acc ++ items) hfuel' hall'
      refine ⟨m, by omega, hm2, ?_, ?_⟩
      · intro k h1 h2
        rcases Nat.lt_or_ge pn k with h | h
        · exact hm3 k (by omega) h2
        · have : k = pn := by omega
          rw [this]
          exact hlt
      · have hstep : pagedLoopAux page count ps (fuel + 1) pn acc
            = ((pagedLoopAux page count ps fuel (pn + 1) (acc ++ items)).1,
               (pn + 1) :: (pagedLoopAux page count ps fuel (pn + 1) (acc ++ items)).2) := by
          simp [pagedLoopAux, hlt, hitems]
        rw [hstep, heq]
        have hmn : m - pn = (m - (pn + 1)) + 1 := by omega
        rw [hmn, List.range'_succ (pn + 1) (m - (pn + 1)) 1]
        simp [hitems, List.append_assoc]
    · have hle : count ≤ ps * pn := by omega
      refine ⟨pn, Nat.le_refl pn, hle, by omega, ?_⟩
      simp [pagedLoopAux, hlt]

end PagedHelpers

/-- C3: a paged fetch sends the total-count flag exactly on the first
request, then requests consecutive pages `2 .. m` (strictly increasing, no
page twice) exactly while `page_size * page_number` is below the declared
total; when every requested page is served and every non-final page is full,
the aggregate has `(m-1) * page_size` items plus the final page, which equals
the declared total for an exact final page and falls short of it — without
any error — for a shorter final page. -/
theorem paged_fetch_spec {α : Type} (server : PageServer α) (ps : Nat) (hps : 0 < ps)
    (l1 : List α) (h1 : server.page 1 = some l1)
    (hall : ∀ p, 1 < p → ps * (p - 1) < server.total → (server.page p).isSome) :
    ∃ m, 1 ≤ m ∧ server.total ≤ ps * m ∧
      (∀ k, 1 ≤ k → k < m → ps * k < server.total) ∧
      (get_all_from_api_paged server ps).2 =
        PageReq.mk 1 ps true :: (List.range' 2 (m - 1)).map (fun p => PageReq.mk p ps false) ∧
      ((get_all_from_api_paged server ps).2.map PageReq.page_number).Pairwise (· < ·) ∧
      (get_all_from_api_paged server ps).1 =
        Except.ok (l1 ++ (List.range' 2 (m - 1)).flatMap (fun p => (server.page p).getD [])) ∧
      ((∀ p lp, server.page p = some lp → ps * p < server.total → lp.length = ps) →
        (l1 ++ (List.range' 2 (m - 1)).flatMap
            (fun p => (server.page p).getD [])).length
          = (m - 1) * ps + (if m = 1 then l1 else (server.page m).getD []).length ∧
        ((if m = 1 then l1 else (server.page m).getD []).length
            = server.total - (m - 1) * ps →
          (l1 ++ (List.range' 2 (m - 1)).flatMap
              (fun p => (server.page p).getD [])).length = server.total) ∧
        ((if m = 1 then l1 else (server.page m).getD []).length
            < server.total - (m - 1) * ps →
          (l1 ++ (List.range' 2 (m - 1)).flatMap
              (fun p => (server.page p).getD [])).length < server.total)) := by
  have hfuel : server.total ≤ ps * (1 + server.total) := by
    have h := Nat.le_mul_of_pos_left (1 + server.total) hps
    omega
  obtain ⟨m, hm1, hm2, hm3, heq⟩ :=
    pagedLoopAux_spec server.page server.total ps server.total 1 l1 hfuel
      (fun p hp h2 => hall p hp h2)
  have hmain : get_all_from_api_paged server ps =
      (Except.ok (l1 ++ (List.range' 2 (m - 1)).flatMap (fun p => (server.page p).getD [])),
       PageReq.mk 1 ps true
         :: (List.range' 2 (m - 1)).map (fun p => PageReq.mk p ps false)) := by
    unfold get_all_from_api_paged
    rw [h1]
    simp only [heq]
  refine ⟨m, hm1, hm2, hm3, by rw [hmain], ?_, by rw [hmain], ?_⟩
  · rw [hmain]
    have hmap : ((PageReq.mk 1 ps true
        :: (List.range' 2 (m - 1)).map (fun p => PageReq.mk p ps false)).map
          PageReq.page_number) = 1 :: List.range' 2 (m - 1) := by
      simp [List.map_map, Function.comp_def]
    rw [hmap]
    refine List.Pairwise.cons ?_ (range1_pairwise_lt (m - 1) 2)
    intro a ha
    have := List.mem_range'_1.mp ha
    omega
  · intro hfull
    have hle2 : (m - 1) * ps ≤ server.total := by
      by_cases hm : m = 1
      · simp [hm]
      · have := hm3 (m - 1) (by omega) (by omega)
        have hcomm : ps * (m - 1) = (m - 1) * ps := Nat.mul_comm ps (m - 1)
        omega
    have hlen : (l1 ++ (List.range' 2 (m - 1)).flatMap
        (fun p => (server.page p).getD [])).length
          = (m - 1) * ps + (if m = 1 then l1 else (server.page m).getD []).length := by
      by_cases hm : m = 1
      · subst hm
        simp
      · have hm2' : 2 ≤ m := by omega
        have hl1 : l1.length = ps := hfull 1 l1 h1 (by
          have := hm3 1 (Nat.le_refl 1) (by omega)
          omega)
        have h21 : m - 1 = (m - 2) + 1 := by omega
        have h2m : 2 + (m - 2) = m := by omega
        have hconcat : List.range' 2 (m - 1) = List.range' 2 (m - 2) ++ [m] := by
          rw [h21, List.range'_1_concat, h2m]
        have hmid : ∀ p ∈ List.range' 2 (m - 2),
            ((server.page p).getD []).length = ps := by
          intro p hp
          have hpb := List.mem_range'_1.mp hp
          have hplt : ps * p < server.total := hm3 p (by omega) (by omega)
          have hpprev : ps * (p - 1) < server.total := hm3 (p - 1) (by omega) (by omega)
          have hsome := hall p (by omega) hpprev
          obtain ⟨lp, hlp⟩ := Option.isSome_iff_exists.mp hsome
          rw [hlp]
          exact hfull p lp hlp hplt
        rw [hconcat]
        simp only [List.flatMap_append, List.flatMap_cons, List.flatMap_nil,
          List.append_nil, List.length_append]
        rw [flatMap_length_of_full server.page ps (List.range' 2 (m - 2)) hmid]
        simp only [List.length_range', hl1]
        have hif : (if m = 1 then l1 else (server.page m).getD [])
            = (server.page m).getD [] := by simp [hm]
        rw [hif]
        have : (m - 1) * ps = (m - 2) * ps + ps := by
          rw [h21, Nat.succ_mul]
        omega
    refine ⟨hlen, ?_, ?_⟩
    · intro hf
      omega
    · intro hf
      omega

/-- Concrete page oracle for the C3 witness: five items served two per page,
so pages 1 and 2 are full and page 3 holds the single remaining item. -/
def pageServerEx : PageServer Nat :=
  ⟨5, fun p =>
    if p = 1 then some [10, 11]
    else if p = 2 then some [12, 13]
    else if p = 3 then some [14]
    else none⟩

/-- C3 witness: the paged-fetch characterisation applied to the concrete
three-page oracle with page size 2. -/
theorem paged_fetch_spec_witness :
    ∃ m, 1 ≤ m ∧ pageServerEx.total ≤ 2 * m ∧
      (∀ k, 1 ≤ k → k < m → 2 * k < pageServerEx.total) ∧
      (get_all_from_api_paged pageServerEx 2).2 =
        PageReq.mk 1 2 true :: (List.range' 2 (m - 1)).map (fun p => PageReq.mk p 2 false) ∧
      ((get_all_from_api_paged pageServerEx 2).2.map PageReq.page_number).Pairwise (· < ·) ∧
      (get_all_from_api_paged pageServerEx 2).1 =
        Except.ok ([10, 11] ++ (List.range' 2 (m - 1)).flatMap
          (fun p => (pageServerEx.page p).getD [])) ∧
      ((∀ p lp, pageServerEx.page p = some lp → 2 * p < pageServerEx.total →
          lp.length = 2) →
        ([10, 11] ++ (List.range' 2 (m - 1)).flatMap
            (fun p => (pageServerEx.page p).getD [])).length
          = (m - 1) * 2 + (if m = 1 then [10, 11] else (pageServerEx.page m).getD []).length ∧
        ((if m = 1 then [10, 11] else (pageServerEx.page m).getD []).length
            = pageServerEx.total - (m - 1) * 2 →
          ([10, 11] ++ (List.range' 2 (m - 1)).flatMap
              (fun p => (pageServerEx.page p).getD [])).length = pageServerEx.total) ∧
        ((if m = 1 then [10, 11] else (pageServerEx.page m).getD []).length
            < pageServerEx.total - (m - 1) * 2 →
          ([10, 11] ++ (List.range' 2 (m - 1)).flatMap
              (fun p => (pageServerEx.page p).getD [])).length < pageServerEx.total)) :=
  paged_fetch_spec pageServerEx 2 (by omega) [10, 11] rfl
    (fun p hp hlt => by
      have ht : pageServerEx.total = 5 := rfl
      rw [ht] at hlt
      have hp3 : p = 2 ∨ p = 3 := by omega
      rcases hp3 with h | h <;> subst h <;> decide)

section GateHelpers

/-- Setting one element of a list changes `countP` by swapping the predicate
contribution of the old value for that of the new one. -/
lemma countP_set_eq {β : Type} (p : β → Bool) :
    ∀ (l : List β) (i : Nat) (x y : β), l[i]? = some y →
      (l.set i x).countP p + (if p y then 1 else 0)
        = l.countP p + (if p x then 1 else 0) := by
  intro l
  induction l with
  | nil => intro i x y h; simp at h
  | cons a t ih =>
    intro i x y h
    cases i with
    | zero =>
      simp only [List.getElem?_cons_zero, Option.some.injEq] at h
      subst h
      simp only [List.set_cons_zero, List.countP_cons]
      cases hpx : p x <;> cases hpa : p a <;> simp [hpx, hpa]
    | succ n =>
      simp only [List.getElem?_cons_succ] at h
      have hrec := ih n x y h
      simp only [List.set_cons_succ, List.countP_cons]
      cases hpa : p a <;> cases hpx : p x <;> cases hpy : p y <;>
        simp [hpa, hpx, hpy] at hrec ⊢ <;> omega

/-- The inductive invariant of the concurrency gate: every task's remaining
actions are a suffix of its script, and the admitted-task count plus the free
permits always total the semaphore's initial 8. -/
def GateInv (s : GateState) : Prop :=
  (∀ t ∈ s.tasks, t.2 <:+ script t.1) ∧ s.tasks.countP admitted + s.sem = 8

/-- A batch's initial state satisfies the gate invariant. -/
lemma gateInv_init (ops : List OpKind) : GateInv (gateInit ops) := by
  constructor
  · intro t ht
    simp only [gateInit, List.mem_map] at ht
    obtain ⟨k, hk, rfl⟩ := ht
    exact List.suffix_refl _
  · have hz : (gateInit ops).tasks.countP admitted = 0 := by
      rw [List.countP_eq_zero]
      intro t ht
      simp only [gateInit, List.mem_map] at ht
      obtain ⟨k, hk, rfl⟩ := ht
      cases k <;> decide
    rw [hz]
    simp [gateInit]

/-- Executing one action of the selected task preserves the gate invariant,
given the balance equation between the old and new semaphore value. -/
lemma gateInv_of_set (s : GateState) (i : Nat) (k : OpKind) (a : Action)
    (rest : List Action) (newSem : Nat)
    (hti : s.tasks[i]? = some (k, a :: rest))
    (hsuf : ∀ t ∈ s.tasks, t.2 <:+ script t.1)
    (hcount : s.tasks.countP admitted + s.sem = 8)
    (hrest : rest <:+ script k)
    (hsem : newSem + (if admitted (k, rest) then 1 else 0)
        = s.sem + (if admitted (k, a :: rest) then 1 else 0)) :
    GateInv ⟨newSem, s.tasks.set i (k, rest)⟩ := by
  constructor
  · intro t ht
    rcases List.mem_or_eq_of_mem_set ht with h | h
    · exact hsuf t h
    · rw [h]
      exact hrest
  · have hc := countP_set_eq admitted s.tasks i (k, rest) (k, a :: rest) hti
    cases hold : admitted (k, a :: rest) <;> cases hnew : admitted (k, rest) <;>
      simp [hold, hnew] at hc hsem ⊢ <;> omega

/-- One scheduler step preserves the gate invariant. -/
lemma gateInv_step {s s' : GateState} (hinv : GateInv s) (hstep : GateStep s s') :
    GateInv s' := by
  obtain ⟨i, hi⟩ := hstep
  obtain ⟨hsuf, hcount⟩ := hinv
  rcases hti : s.tasks[i]? with _ | ⟨k, acts⟩
  · unfold execTask at hi
    rw [hti] at hi
    cases hi
  · rcases acts with _ | ⟨a, rest⟩
    · unfold execTask at hi
      rw [hti] at hi
      cases hi
    · have hmem : (k, a :: rest) ∈ s.tasks := List.getElem?_mem hti
      have hsufi : (a :: rest) <:+ script k := hsuf _ hmem
      unfold execTask at hi
      rw [hti] at hi
      cases k
      case post =>
        simp only [script, List.suffix_cons_iff, List.suffix_nil] at hsufi
        rcases hsufi with h | h | h | h | h
        · injection h with h1 h2; subst h1; subst h2
          by_cases hz : s.sem = 0
          · simp [hz] at hi
          · simp only [hz, if_false, ite_false, Option.some.injEq] at hi
            rw [← hi]
            refine gateInv_of_set s i OpKind.post Action.acquire
              [Action.reqStart, Action.reqEnd, Action.release] (s.sem - 1)
              hti hsuf hcount (by decide) ?_
            have hA : admitted (OpKind.post,
                [Action.reqStart, Action.reqEnd, Action.release]) = true := by decide
            have hB : admitted (OpKind.post, Action.acquire
                :: [Action.reqStart, Action.reqEnd, Action.release]) = false := by decide
            rw [hA, hB]
            have hs : s.sem - 1 + 1 = s.sem := by omega
            simpa using hs
        · injection h with h1 h2; subst h1; subst h2
          simp only [Option.some.injEq] at hi
          rw [← hi]
          refine gateInv_of_set s i OpKind.post Action.reqStart
            [Action.reqEnd, Action.release] s.sem hti hsuf hcount (by decide) ?_
          have hA : admitted (OpKind.post, [Action.reqEnd, Action.release]) = true := by
            decide
          have hB : admitted (OpKind.post, Action.reqStart
              :: [Action.reqEnd, Action.release]) = true := by decide
          rw [hA, hB]
        · injection h with h1 h2; subst h1; subst h2
          simp only [Option.some.injEq] at hi
          rw [← hi]
          refine gateInv_of_set s i OpKind.post Action.reqEnd
            [Action.release] s.sem hti hsuf hcount (by decide) ?_
          have hA : admitted (OpKind.post, [Action.release]) = true := by decide
          have hB : admitted (OpKind.post, Action.reqEnd :: [Action.release]) = true := by
            decide
          rw [hA, hB]
        · injection h with h1 h2; subst h1; subst h2
          simp only [Option.some.injEq] at hi
          rw [← hi]
          refine gateInv_of_set s i OpKind.post Action.release [] (s.sem + 1)
            hti hsuf hcount (by decide) ?_
          have hA : admitted (OpKind.post, ([] : List Action)) = false := by decide
          have hB : admitted (OpKind.post, Action.release :: ([] : List Action)) = true := by
            decide
          rw [hA, hB]
          simp
        · exact absurd h (by simp)
      case patchOp =>
        simp only [script, List.suffix_cons_iff, List.suffix_nil] at hsufi
        rcases hsufi with h | h | h
        · injection h with h1 h2; subst h1; subst h2
          simp only [Option.some.injEq] at hi
          rw [← hi]
          refine gateInv_of_set s i OpKind.patchOp Action.reqStart
            [Action.reqEnd] s.sem hti hsuf hcount (by decide) ?_
          have hA : admitted (OpKind.patchOp, [Action.reqEnd]) = false := by decide
          have hB : admitted (OpKind.patchOp, Action.reqStart :: [Action.reqEnd]) = false := by
            decide
          rw [hA, hB]
        · injection h with h1 h2; subst h1; subst h2
          simp only [Option.some.injEq] at hi
          rw [← hi]
          refine gateInv_of_set s i OpKind.patchOp Action.reqEnd [] s.sem
            hti hsuf hcount (by decide) ?_
          have hA : admitted (OpKind.patchOp, ([] : List Action)) = false := by decide
          have hB : admitted (OpKind.patchOp, Action.reqEnd :: ([] : List Action)) = false := by
            decide
          rw [hA, hB]
        · exact absurd h (by simp)
      case newVersionOp =>
        simp only [script, List.suffix_cons_iff, List.suffix_nil] at hsufi
        rcases hsufi with h | h | h
        · injection h with h1 h2; subst h1; subst h2
          simp only [Option.some.injEq] at hi
          rw [← hi]
          refine gateInv_of_set s i OpKind.newVersionOp Action.reqStart
            [Action.reqEnd] s.sem hti hsuf hcount (by decide) ?_
          have hA : admitted (OpKind.newVersionOp, [Action.reqEnd]) = false := by decide
          have hB : admitted (OpKind.newVersionOp,
              Action.reqStart :: [Action.reqEnd]) = false := by decide
          rw [hA, hB]
        · injection h with h1 h2; subst h1; subst h2
          simp only [Option.some.injEq] at hi
          rw [← hi]
          refine gateInv_of_set s i OpKind.newVersionOp Action.reqEnd [] s.sem
            hti hsuf hcount (by decide) ?_
          have hA : admitted (OpKind.newVersionOp, ([] : List Action)) = false := by decide
          have hB : admitted (OpKind.newVersionOp,
              Action.reqEnd :: ([] : List Action)) = false := by decide
          rw [hA, hB]
        · exact absurd h (by simp)
      case approveOp =>
        simp only [script, List.suffix_cons_iff, List.suffix_nil] at hsufi
        rcases hsufi with h | h | h
        · injection h with h1 h2; subst h1; subst h2
          simp only [Option.some.injEq] at hi
          rw [← hi]
          refine gateInv_of_set s i OpKind.approveOp Action.reqStart
            [Action.reqEnd] s.sem hti hsuf hcount (by decide) ?_
          have hA : admitted (OpKind.approveOp, [Action.reqEnd]) = false := by decide
          have hB : admitted (OpKind.approveOp,
              Action.reqStart :: [Action.reqEnd]) = false := by decide
          rw [hA, hB]
        · injection h with h1 h2; subst h1; subst h2
          simp only [Option.some.injEq] at hi
          rw [← hi]
          refine gateInv_of_set s i OpKind.approveOp Action.reqEnd [] s.sem
            hti hsuf hcount (by decide) ?_
          have hA : admitted (OpKind.approveOp, ([] : List Action)) = false := by decide
          have hB : admitted (OpKind.approveOp,
              Action.reqEnd :: ([] : List Action)) = false := by decide
          rw [hA, hB]
        · exact absurd h (by simp)

/-- The gate invariant holds in every state reachable from a batch start. -/
lemma gateInv_reachable {ops : List OpKind} {s : GateState}
    (h : GateReachable (gateInit ops) s) : GateInv s := by
  induction h with
  | refl => exact gateInv_init ops
  | tail _ hstep ih => exact gateInv_step ih hstep

end GateHelpers

/-- C1 (amended: only POST requests issued through `post_to_api_async` pass
through the admission limiter — patch, new-version and approval requests
never touch the semaphore — so the bound of 8 concurrently in-flight
requests holds for the gated posts, not for every asynchronous request): in
any state reachable from a batch start, at most 8 posts are simultaneously
in flight between semaphore admission and completion. -/
theorem gate_admits_at_most_eight_posts (ops : List OpKind) (s : GateState)
    (h : GateReachable (gateInit ops) s) : countInFlightPosts s ≤ 8 := by
  obtain ⟨hsuf, hcount⟩ := gateInv_reachable h
  have hmono : countInFlightPosts s ≤ s.tasks.countP admitted := by
    unfold countInFlightPosts
    apply List.countP_mono_left
    intro t ht hpred
    obtain ⟨k, acts⟩ := t
    simp only [Bool.and_eq_true, decide_eq_true_eq] at hpred
    obtain ⟨hk, hfl⟩ := hpred
    subst hk
    have hsufi : acts <:+ script OpKind.post := hsuf _ ht
    simp only [script, List.suffix_cons_iff, List.suffix_nil] at hsufi
    simp only [inFlight] at hfl
    rcases hsufi with h | h | h | h | h <;> subst h <;>
      simp at hfl ⊢ <;> decide
  omega

/-- C1 witness: the bound applied to the initial state of a mixed batch. -/
theorem gate_admits_at_most_eight_posts_witness :
    countInFlightPosts (gateInit [OpKind.post, OpKind.patchOp]) ≤ 8 :=
  gate_admits_at_most_eight_posts [OpKind.post, OpKind.patchOp] _
    Relation.ReflTransGen.refl

/-- State of the C1 counterexample after `j` of the nine concurrently
scheduled patch tasks have started their HTTP requests. -/
def ceState (j : Nat) : GateState :=
  ⟨8, List.replicate j (OpKind.patchOp, [Action.reqEnd])
    ++ List.replicate (9 - j) (OpKind.patchOp, [Action.reqStart, Action.reqEnd])⟩

/-- Each of the nine patch tasks can start its request in turn: none of them
ever waits on the semaphore. -/
lemma ceStepAux : ∀ j : Fin 9,
    execTask (ceState j.val) j.val = some (ceState (j.val + 1)) := by
  decide

/-- The scheduler step corresponding to `ceStepAux`. -/
lemma ceStep (j : Nat) (hj : j < 9) : GateStep (ceState j) (ceState (j + 1)) :=
  ⟨j, ceStepAux ⟨j, hj⟩⟩

/-- C1 counterexample: the claim bounds the count of outstanding requests of
every kind (posts, patches, new-version and approval requests) by 8, but
patch requests are issued without semaphore admission: from a batch of nine
concurrent patch operations the scheduler reaches a state with nine HTTP
requests simultaneously in flight. -/
theorem gate_nine_concurrent_requests_counterexample :
    ∃ s, GateReachable (gateInit (List.replicate 9 OpKind.patchOp)) s ∧
      8 < countInFlight s := by
  have h0 : gateInit (List.replicate 9 OpKind.patchOp) = ceState 0 := by decide
  refine ⟨ceState 9, ?_, by decide⟩
  rw [h0]
  exact Relation.ReflTransGen.head (ceStep 0 (by omega))
    (Relation.ReflTransGen.head (ceStep 1 (by omega))
    (Relation.ReflTransGen.head (ceStep 2 (by omega))
    (Relation.ReflTransGen.head (ceStep 3 (by omega))
    (Relation.ReflTransGen.head (ceStep 4 (by omega))
    (Relation.ReflTransGen.head (ceStep 5 (by omega))
    (Relation.ReflTransGen.head (ceStep 6 (by omega))
    (Relation.ReflTransGen.head (ceStep 7 (by omega))
    (Relation.ReflTransGen.head (ceStep 8 (by omega))
      Relation.ReflTransGen.refl))))))))

end ApiBindings
